import Mathlib

/-!
# Verification of the clickideia-api card slice

Shallow embedding of the Card data model, the `CardPersistence` data-access
layer, the `CardController` request handlers and the router table of the
clickideia-api repository, together with proofs about the behaviour the
specification describes.

Conventions of the embedding:
* a JavaScript string-or-undefined value (query parameters, body fields) is an
  `Option String`; JS truthiness of such a value is `jsTruthy`;
* the database is a `List Card` (plus a `List User` for the eager-loaded
  owner); Sequelize `findAll` returns the rows in storage order, `findOne` /
  `findByPk` the first match;
* a Sequelize `where` object of equality clauses is an association list
  `List (String × String)`; the JS object spread `{...w, [k]: v}` is
  `insertField`, which overrides an existing binding for the same key;
* machine integers stay well inside 2^53, so ids and counts are `Nat`.
-/

namespace Clickideia

/-- JS truthiness of a string-or-undefined value: `undefined` and the empty
string are falsy, every other string is truthy. -/
def jsTruthy : Option String → Bool
  | none => false
  | some s => s ≠ ""

/-- A row of the `cards` table (src/server/models/cards.js): integer primary
key `cardId`, integer foreign key `userId`, string `title`, `content`,
`status`, and application-formatted string timestamps. -/
structure Card where
  cardId : Nat
  userId : Nat
  title : String
  content : String
  status : String
  createdAt : String
  updatedAt : String
deriving DecidableEq, Repr

/-- The fields of the owning user that the `userCard` association eager-loads.
Only identity matters for the claims, so the model keeps the key and a name. -/
structure User where
  userId : Nat
  name : String
deriving DecidableEq, Repr

/-- Column lookup used by equality `where` clauses: the stored value of the
named column rendered as the string the SQL comparison sees; `none` for an
unknown column name (such a clause matches no row). -/
def fieldValue (c : Card) : String → Option String
  | "cardId" => some (toString c.cardId)
  | "userId" => some (toString c.userId)
  | "title" => some c.title
  | "content" => some c.content
  | "status" => some c.status
  | "createdAt" => some c.createdAt
  | "updatedAt" => some c.updatedAt
  | _ => none

/-- The JS object spread `{...w, [field]: value}`: binds `field` to `value`,
replacing an existing binding for the same key. -/
def insertField (w : List (String × String)) (field value : String) : List (String × String) :=
  if w.any (fun p => p.1 == field) then
    w.map (fun p => if p.1 == field then (field, value) else p)
  else
    w ++ [(field, value)]

/-- A row matches a `where` object iff it satisfies every equality clause
(clauses on distinct keys are combined with AND). -/
def matchesWhere (c : Card) (w : List (String × String)) : Bool :=
  w.all (fun p => fieldValue c p.1 == some p.2)

/-- The `where` object built by `CardPersistence.searchCards`
(src/server/routes/index.js): a `userId` clause when `userId` is truthy, a
`status` clause when `status` is truthy and not the sentinel `"Todos"`. -/
def searchCardsWhere (userId status : Option String) : List (String × String) :=
  let w : List (String × String) := []
  let w := if jsTruthy userId then insertField w "userId" (userId.getD "") else w
  let w := if jsTruthy status && status != some "Todos" then insertField w "status" (status.getD "") else w
  w

/-- `CardPersistence.searchCards`: `Card.findAll` with the dynamically built
equality filter — all stored rows that match the `where` object. (The
eager-loaded owner attached to each row plays no part in the claims about
this operation and is not carried in the result.) -/
def searchCards (db : List Card) (userId status : Option String) : List Card :=
  db.filter (fun c => matchesWhere c (searchCardsWhere userId status))

/-- A row as returned by a query: the card itself plus the eager-loaded
owning user (`userCard` association), populated only when the query asked
for the include. -/
structure CardResult where
  card : Card
  userCard : Option User
deriving DecidableEq, Repr

/-- Sequelize `Card.findByPk(id, options)`: point lookup by primary key; the
`userCard` association is hydrated exactly when the options carry
`include: [userCard]`. -/
def findByPk (cards : List Card) (users : List User) (cardId : Nat)
    (includeUserCard : Bool) : Option CardResult :=
  match cards.find? (fun c => c.cardId == cardId) with
  | some c =>
      some { card := c,
             userCard := if includeUserCard then users.find? (fun u => u.userId == c.userId)
                         else none }
  | none => none

/-- `CardPersistence.findCardById`: `findByPk` with the `userCard` include;
returns the row when present and `null` (here `none`) when absent. -/
def findCardById (cards : List Card) (users : List User) (cardId : Nat) : Option CardResult :=
  match findByPk cards users cardId true with
  | some cardCollection => some cardCollection
  | none => none

/-- Sequelize `Card.findOne(options)`: first stored row matching the options'
`where` object, `userCard` hydrated only when the options carry the include.
`findOne` accepts a single options argument; anything passed after it is
discarded. -/
def findOne (cards : List Card) (users : List User)
    (whereClauses : List (String × String)) (includeUserCard : Bool) : Option CardResult :=
  match cards.find? (fun c => matchesWhere c whereClauses) with
  | some c =>
      some { card := c,
             userCard := if includeUserCard then users.find? (fun u => u.userId == c.userId)
                         else none }
  | none => none

/-- `CardPersistence.findCardByParameters`: folds the field/value list into a
`where` object with the spread `{...where, [field]: {Op.and: {Op.eq: value}}}`
and runs `Card.findOne(query, { include: [userCard] })`. The include object is
the second argument of `findOne`, which takes only one, so the query runs
without the include. -/
def findCardByParameters (cards : List Card) (users : List User)
    (parameters : List (String × String)) : Option CardResult :=
  let w := parameters.foldl (fun acc p => insertField acc p.1 p.2) []
  match findOne cards users w false with
  | some cardCollection => some cardCollection
  | none => none

/-- Body of an update request: the four updatable columns as sent by the
client (`none` models an absent / `undefined` JSON field). -/
structure CardUpdateBody where
  userId : Option Nat
  title : Option String
  content : Option String
  status : Option String
deriving DecidableEq, Repr

/-- The value object handed to `cardCollection.update` by the controller:
the body fields plus the restamped `updatedAt`. -/
structure CardUpdateFields where
  userId : Option Nat
  title : Option String
  content : Option String
  status : Option String
  updatedAt : Option String
deriving DecidableEq, Repr

/-- Sequelize `instance.update(values)`: each defined value overwrites the
column, `undefined` values leave it unchanged. -/
def applyUpdate (c : Card) (f : CardUpdateFields) : Card :=
  { c with
    userId := f.userId.getD c.userId
    title := f.title.getD c.title
    content := f.content.getD c.content
    status := f.status.getD c.status
    updatedAt := f.updatedAt.getD c.updatedAt }

/-- `CardPersistence.updateCard`: load by primary key (with the `userCard`
include); when present, apply the partial update and return the mutated row,
when absent return `null` leaving the store untouched. Result: the returned
row (or `none`) together with the store after the call. -/
def updateCard (cards : List Card) (users : List User) (cardId : Nat)
    (f : CardUpdateFields) : Option CardResult × List Card :=
  match findByPk cards users cardId true with
  | some r =>
      let c := applyUpdate r.card f
      (some { card := c, userCard := r.userCard },
       cards.map (fun x => if x.cardId == cardId then c else x))
  | none => (none, cards)

/-- An HTTP response of the card handlers: either a success status with the
returned row, or the error formatter's status / severity tag / message. -/
inductive ApiResponse where
  | ok (status : Nat) (result : CardResult)
  | err (status : Nat) (severity message : String)
deriving DecidableEq, Repr

/-- `CardController.findCardById`: `200` with the row when found, otherwise
the error formatter is invoked with status `500`, severity `error` and the
not-found message. -/
def findCardByIdController (cards : List Card) (users : List User) (id : Nat) : ApiResponse :=
  match findCardById cards users id with
  | some cardCollection => ApiResponse.ok 200 cardCollection
  | none => ApiResponse.err 500 "error" "Card não encontrado"

/-- Outcome of a write handler: the store after the request, the HTTP
response, and whether the surrounding transaction was committed or rolled
back. -/
structure WriteOutcome where
  db : List Card
  response : ApiResponse
  committed : Bool
  rolledBack : Bool
deriving DecidableEq, Repr

/-- `CardController.updateCard`: opens a transaction, restamps `updatedAt` to
now, delegates to the persistence update; `200` with the row when it exists,
otherwise the `404`/`warning` not-found response — and the code then falls
through to `transaction.commit()` in both branches. -/
def updateCardController (cards : List Card) (users : List User) (id : Nat)
    (body : CardUpdateBody) (now : String) : WriteOutcome :=
  let fields : CardUpdateFields :=
    { userId := body.userId, title := body.title, content := body.content,
      status := body.status, updatedAt := some now }
  match updateCard cards users id fields with
  | (some cardCollection, cards') =>
      { db := cards', response := ApiResponse.ok 200 cardCollection,
        committed := true, rolledBack := false }
  | (none, cards') =>
      { db := cards', response := ApiResponse.err 404 "warning" "Card não encontrado",
        committed := true, rolledBack := false }

/-- Body of a create request as read by `CardController.createCard`:
`cardId, userId, title, content, status`; a `none` `cardId` models a body
that omits it, letting the auto-increment column generate the key. -/
structure CreateCardBody where
  cardId : Option Nat
  userId : Nat
  title : String
  content : String
  status : String
deriving DecidableEq, Repr

/-- The key the auto-increment `cardId` column generates next: one more than
the largest key ever handed out (modelled as one more than the largest key
present). -/
def nextAutoId (cards : List Card) : Nat :=
  (cards.map (fun c => c.cardId)).foldr Nat.max 0 + 1

/-- Response of the create handler: `201` with the inserted record, or the
error formatter's output. -/
inductive CreateResponse where
  | created (status : Nat) (card : Card)
  | err (status : Nat) (severity message : String)
deriving DecidableEq, Repr

/-- Outcome of `CardController.createCard`. -/
structure CreateOutcome where
  db : List Card
  response : CreateResponse
  committed : Bool
  rolledBack : Bool
deriving DecidableEq, Repr

/-- `CardController.createCard`: builds the row from the request body —
`cardId` is passed through to the insert when the body supplies one, and is
generated by the auto-increment column when it does not — and stamps
`createdAt` and `updatedAt` with the same formatted now. A duplicate primary
key makes the insert throw, which the catch turns into a rollback and the
`500` failure message; otherwise the transaction commits and the handler
responds `201` with the inserted record. -/
def createCardController (cards : List Card) (body : CreateCardBody) (now : String) :
    CreateOutcome :=
  let newId := body.cardId.getD (nextAutoId cards)
  if cards.any (fun c => c.cardId == newId) then
    { db := cards,
      response := CreateResponse.err 500 "error"
        "Falha ao gerar o cadastro do card, tente novamente mais tarde",
      committed := false, rolledBack := true }
  else
    let newCard : Card :=
      { cardId := newId, userId := body.userId, title := body.title,
        content := body.content, status := body.status,
        createdAt := now, updatedAt := now }
    { db := cards ++ [newCard], response := CreateResponse.created 201 newCard,
      committed := true, rolledBack := false }

/-- The query string of a GET /cards/ request: the controller reads only
`userId`; a `status` parameter may be present but is never read. -/
structure ReqQuery where
  userId : Option String
  status : Option String
deriving DecidableEq, Repr

/-- Response of `CardController.searchCards`: the three status buckets. -/
structure SearchCardsResponse where
  status : Nat
  toDoCards : List Card
  doingCards : List Card
  doneCards : List Card
deriving DecidableEq, Repr

/-- The persistence calls `CardController.searchCards` performs, in order:
one `searchCards` per fixed status `TO-DO`, `DOING`, `DONE`, each passing the
query-string `userId` through. -/
def searchCardsControllerCalls (q : ReqQuery) : List (Option String × String) :=
  [(q.userId, "TO-DO"), (q.userId, "DOING"), (q.userId, "DONE")]

/-- `CardController.searchCards`: reads `userId` from the query string, runs
the three fixed-status persistence searches and responds `200` with the three
buckets. -/
def searchCardsController (db : List Card) (q : ReqQuery) : SearchCardsResponse :=
  let userId := q.userId
  let toDoCardsCollection := searchCards db userId (some "TO-DO")
  let doingCardsCollection := searchCards db userId (some "DOING")
  let doneCardsCollection := searchCards db userId (some "DONE")
  { status := 200, toDoCards := toDoCardsCollection,
    doingCards := doingCardsCollection, doneCards := doneCardsCollection }

/-- One line of the route table: HTTP method, path pattern, whether the
`verifyJWTToken` middleware is attached, and the handler. -/
structure Route where
  method : String
  path : String
  auth : Bool
  handler : String
deriving DecidableEq, Repr

/-- The route table of src/server/routes/index.js, in declaration order. -/
def routes : List Route :=
  [ { method := "POST", path := "/cards/", auth := true, handler := "CardController.createCard" },
    { method := "PUT", path := "/cards/:id", auth := true, handler := "CardController.updateCard" },
    { method := "DELETE", path := "/cards/:id", auth := true, handler := "CardController.deleteCard" },
    { method := "GET", path := "/cards/", auth := true, handler := "CardController.searchCards" },
    { method := "GET", path := "/cards/:id", auth := true, handler := "CardController.findCardById" },
    { method := "GET", path := "/cards/tasks/count", auth := true, handler := "CardController.countCards" },
    { method := "GET", path := "/users/", auth := true, handler := "UserController.searchUsers" },
    { method := "GET", path := "/users/:id", auth := true, handler := "UserController.findUserById" },
    { method := "GET", path := "/users/tasks/count", auth := true, handler := "UserController.countUsers" },
    { method := "POST", path := "/users/", auth := false, handler := "UserController.createUser" },
    { method := "PUT", path := "/users/:id", auth := true, handler := "UserController.updateUser" },
    { method := "POST", path := "/users/login", auth := false, handler := "UserController.authenticateUser" },
    { method := "POST", path := "/users/recovery", auth := false, handler := "UserController.recoverUserPassword" } ]

/-- Split a character list on `/` separators (the semantics of
`String.splitOn "/"` on the string's characters). -/
def splitSlash : List Char → List (List Char)
  | [] => [[]]
  | c :: cs =>
      if c = '/' then [] :: splitSlash cs
      else
        match splitSlash cs with
        | [] => [[c]]
        | seg :: rest => (c :: seg) :: rest

/-- One pattern segment against one path segment: a `:param` segment matches
any nonempty segment, a literal segment matches only itself. -/
def segMatches (pat seg : List Char) : Bool :=
  match pat with
  | ':' :: _ => seg != []
  | _ => pat == seg

/-- Express path matching, segment by segment. -/
def pathMatches (pat path : String) : Bool :=
  let ps := splitSlash pat.data
  let ss := splitSlash path.data
  ps.length == ss.length && (List.zip ps ss).all (fun p => segMatches p.1 p.2)

/-- The structured payload of the router's catch-all fallback. -/
structure FallbackPayload where
  code : Nat
  type : String
  message : String
  date : String
deriving DecidableEq, Repr

/-- What the router produces for a request: the matched route's handler, or
the catch-all fallback response. -/
inductive RouterResult where
  | handled (handler : String)
  | fallback (status : Nat) (payload : FallbackPayload)
deriving DecidableEq, Repr

/-- The router: the first declared route whose method and path pattern match
handles the request; a request matching no declared route reaches the
catch-all, which sends status `404` with the structured payload
`{code: 404, type: 'error', message: 'Rota não encontrada', date}`. -/
def dispatch (method path date : String) : RouterResult :=
  match routes.find? (fun r => r.method == method && pathMatches r.path path) with
  | some r => RouterResult.handled r.handler
  | none =>
      RouterResult.fallback 404
        { code := 404, type := "error", message := "Rota não encontrada", date := date }

/-- Lexicographic strict comparison of char lists, the order underlying the
string collation (`<` on `List Char`). -/
def charListLt : List Char → List Char → Bool
  | [], [] => false
  | [], _ :: _ => true
  | _ :: _, [] => false
  | a :: as, b :: bs =>
      if a < b then true
      else if b < a then false
      else charListLt as bs

/-- Strict string comparison by code points, the collation `ORDER BY` sorts
with. -/
def strLtb (a b : String) : Bool := charListLt a.data b.data

/-- Insert a string into a descending-sorted list, keeping it descending. -/
def insertDesc (s : String) : List String → List String
  | [] => [s]
  | t :: ts => if strLtb s t then t :: insertDesc s ts else s :: t :: ts

/-- Sort a list of strings in descending order (`ORDER BY status DESC`). -/
def sortDesc (l : List String) : List String :=
  l.foldr insertDesc []

/-- `CardPersistence.countCardsByStatus`: count of cards grouped by `status`,
ordered by `status` descending, optionally filtered by a truthy `userId` —
one `(status, count)` row per distinct status value present among the
(filtered) cards. -/
def countCardsByStatus (db : List Card) (userId : Option String) : List (String × Nat) :=
  let w := if jsTruthy userId then insertField [] "userId" (userId.getD "") else []
  let filtered := db.filter (fun c => matchesWhere c w)
  let statuses := sortDesc ((filtered.map (fun c => c.status)).dedup)
  statuses.map (fun s => (s, (filtered.filter (fun c => c.status == s)).length))

/-- JS array element assignment `arr[i] = v`: in-place when `i` is in range,
extending the array (zero-filling any gap) when it is not. -/
def setIdx (arr : List Nat) (i : Nat) (v : Nat) : List Nat :=
  if i < arr.length then arr.set i v
  else arr ++ List.replicate (i - arr.length) 0 ++ [v]

/-- The `for` loop of `CardController.countCards`: running over the grouped
counts with index `i`, it accumulates `sumCards += count` and writes
`cardsTotal[i] = count`; returns the final `(sumCards, cardsTotal)`. -/
def countLoop : List Nat → Nat → Nat → List Nat → Nat × List Nat
  | [], _, sumCards, cardsTotal => (sumCards, cardsTotal)
  | c :: cs, i, sumCards, cardsTotal => countLoop cs (i + 1) (sumCards + c) (setIdx cardsTotal i c)

/-- The array `CardController.countCards` builds from the grouped counts:
start from `[0, 0, 0, 0]`, run the loop, then write the grand total into
slot 3. -/
def countCardsTotals (counts : List Nat) : List Nat :=
  let r := countLoop counts 0 0 [0, 0, 0, 0]
  setIdx r.2 3 r.1

/-- `CardController.countCards`: reads `userId` from the query string, runs
the grouped count and sends the positional totals array. -/
def countCardsController (db : List Card) (userId : Option String) : List Nat :=
  countCardsTotals ((countCardsByStatus db userId).map (fun p => p.2))

/-- A store holding one card each of four distinct status strings — statuses
are free-form at the storage level, nothing restricts them to the three
canonical values. -/
def dbFourStatuses : List Card :=
  [⟨1, 1, "t1", "c1", "A", "d", "d"⟩, ⟨2, 1, "t2", "c2", "B", "d", "d"⟩,
   ⟨3, 1, "t3", "c3", "C", "d", "d"⟩, ⟨4, 1, "t4", "c4", "D", "d", "d"⟩]

/-- A store holding one card each of five distinct status strings. -/
def dbFiveStatuses : List Card :=
  [⟨1, 1, "t1", "c1", "A", "d", "d"⟩, ⟨2, 1, "t2", "c2", "B", "d", "d"⟩,
   ⟨3, 1, "t3", "c3", "C", "d", "d"⟩, ⟨4, 1, "t4", "c4", "D", "d", "d"⟩,
   ⟨5, 1, "t5", "c5", "E", "d", "d"⟩]

/-- A store holding one card of each of the three canonical statuses. -/
def dbThreeStatuses : List Card :=
  [⟨1, 7, "t1", "c1", "TO-DO", "d", "d"⟩, ⟨2, 7, "t2", "c2", "DOING", "d", "d"⟩,
   ⟨3, 7, "t3", "c3", "DONE", "d", "d"⟩]

/-- A store holding a single card. -/
def dbOneStatus : List Card :=
  [⟨1, 7, "t1", "c1", "TO-DO", "d", "d"⟩]

end Clickideia

namespace Clickideia

/-- Closed form of the `where` object built by `searchCards`: the two optional
clauses in order. -/
theorem searchCardsWhere_eq (userId status : Option String) :
    searchCardsWhere userId status =
      (if jsTruthy userId then [("userId", userId.getD "")] else []) ++
      (if jsTruthy status && status != some "Todos" then [("status", status.getD "")] else []) := by
  unfold searchCardsWhere insertField
  by_cases hu : jsTruthy userId = true <;>
    by_cases hs : (jsTruthy status && status != some "Todos") = true <;>
      simp [hu, hs]

/-- `C3`: in `CardPersistence.searchCards` the filter has a `userId` clause
exactly when `userId` is truthy and a `status` clause exactly when `status` is
truthy and differs from the sentinel `"Todos"`; with no clause every stored
card is returned; and `searchCards userId "Todos"` coincides with
`searchCards userId undefined`. -/
theorem searchCards_filter_spec (db : List Card) (userId status : Option String) :
    ((searchCardsWhere userId status).lookup "userId" ≠ none ↔ jsTruthy userId = true)
    ∧ ((searchCardsWhere userId status).lookup "status" ≠ none ↔
        (jsTruthy status = true ∧ status ≠ some "Todos"))
    ∧ (searchCardsWhere userId status = [] → searchCards db userId status = db)
    ∧ searchCards db userId (some "Todos") = searchCards db userId none := by
  have hb : ((jsTruthy status && status != some "Todos") = true) ↔
      (jsTruthy status = true ∧ status ≠ some "Todos") := by
    simp
  refine ⟨?_, ?_, ?_, ?_⟩
  · rw [searchCardsWhere_eq]
    by_cases hu : jsTruthy userId = true <;>
      by_cases hs : (jsTruthy status && status != some "Todos") = true <;>
        simp [hu, hs, List.lookup]
  · rw [searchCardsWhere_eq]
    by_cases hs : (jsTruthy status && status != some "Todos") = true
    · have hP := hb.mp hs
      by_cases hu : jsTruthy userId = true <;>
        simp [hu, hs, List.lookup, hP.1, hP.2]
    · have hP : ¬(jsTruthy status = true ∧ status ≠ some "Todos") := fun h => hs (hb.mpr h)
      by_cases hu : jsTruthy userId = true <;>
        simp [hu, hs, List.lookup, hP]
  · intro hempty
    simp [searchCards, hempty, matchesWhere]
  · have hsame : searchCardsWhere userId (some "Todos") = searchCardsWhere userId none := by
      rw [searchCardsWhere_eq, searchCardsWhere_eq]
      simp [jsTruthy]
    simp [searchCards, hsame]

/-- Witness for `searchCards_filter_spec` at a concrete store and concrete
query values. -/
theorem searchCards_filter_spec_witness :
    searchCards [⟨1, 7, "t", "c", "TO-DO", "d", "d"⟩] (some "7") (some "Todos")
      = searchCards [⟨1, 7, "t", "c", "TO-DO", "d", "d"⟩] (some "7") none :=
  (searchCards_filter_spec [⟨1, 7, "t", "c", "TO-DO", "d", "d"⟩] (some "7") (some "Todos")).2.2.2

/-- `C2`: `CardController.searchCards` always responds `200`, computes its
three buckets by the three fixed-status persistence searches over the
query-string `userId`, performs exactly those three persistence calls, and a
caller-supplied `status` query parameter changes nothing. -/
theorem searchCardsController_spec (db : List Card) (q : ReqQuery) :
    (searchCardsController db q).status = 200
    ∧ (searchCardsController db q).toDoCards = searchCards db q.userId (some "TO-DO")
    ∧ (searchCardsController db q).doingCards = searchCards db q.userId (some "DOING")
    ∧ (searchCardsController db q).doneCards = searchCards db q.userId (some "DONE")
    ∧ searchCardsControllerCalls q
        = [(q.userId, "TO-DO"), (q.userId, "DOING"), (q.userId, "DONE")]
    ∧ (∀ st : Option String,
        searchCardsController db { userId := q.userId, status := st }
          = searchCardsController db q) :=
  ⟨rfl, rfl, rfl, rfl, rfl, fun _ => rfl⟩

/-- `C4`: `CardPersistence.findCardById` yields `none` (it is total, nothing
is raised) whenever no stored card carries the id, the controller then
responds with status `500` and the not-found message, and when a card is
found it responds `200` with the record. -/
theorem findCardByIdController_spec (cards : List Card) (users : List User) (id : Nat) :
    ((∀ c ∈ cards, c.cardId ≠ id) → findCardById cards users id = none)
    ∧ (findCardById cards users id = none →
        findCardByIdController cards users id
          = ApiResponse.err 500 "error" "Card não encontrado")
    ∧ (∀ r, findCardById cards users id = some r →
        findCardByIdController cards users id = ApiResponse.ok 200 r) := by
  refine ⟨?_, ?_, ?_⟩
  · intro h
    have hfind : cards.find? (fun c => c.cardId == id) = none := by
      apply List.find?_eq_none.mpr
      intro c hc
      simp [h c hc]
    simp [findCardById, findByPk, hfind]
  · intro h
    unfold findCardByIdController
    rw [h]
  · intro r h
    unfold findCardByIdController
    rw [h]

/-- Witness for `findCardByIdController_spec`: id `2` is absent from a
one-card store, and the response is the `500` not-found error. -/
theorem findCardByIdController_spec_witness :
    findCardByIdController [⟨1, 7, "t", "c", "TO-DO", "d", "d"⟩] [] 2
      = ApiResponse.err 500 "error" "Card não encontrado" :=
  (findCardByIdController_spec [⟨1, 7, "t", "c", "TO-DO", "d", "d"⟩] [] 2).2.1
    ((findCardByIdController_spec [⟨1, 7, "t", "c", "TO-DO", "d", "d"⟩] [] 2).1 (by decide))

/-- `C5`: updating an id with no matching card responds `404` with the
not-found message, leaves the store exactly as it was, and the transaction is
still committed (and not rolled back). -/
theorem updateCardController_notFound (cards : List Card) (users : List User) (id : Nat)
    (body : CardUpdateBody) (now : String)
    (h : ∀ c ∈ cards, c.cardId ≠ id) :
    updateCardController cards users id body now =
      { db := cards, response := ApiResponse.err 404 "warning" "Card não encontrado",
        committed := true, rolledBack := false } := by
  have hfind : cards.find? (fun c => c.cardId == id) = none := by
    apply List.find?_eq_none.mpr
    intro c hc
    simp [h c hc]
  simp [updateCardController, updateCard, findByPk, hfind]

/-- Witness for `updateCardController_notFound` on a concrete one-card store
and the absent id `2`. -/
theorem updateCardController_notFound_witness :
    updateCardController [⟨1, 7, "t", "c", "TO-DO", "d", "d"⟩] [] 2
        ⟨none, none, none, none⟩ "2026-01-01 00:00:00" =
      { db := [⟨1, 7, "t", "c", "TO-DO", "d", "d"⟩],
        response := ApiResponse.err 404 "warning" "Card não encontrado",
        committed := true, rolledBack := false } :=
  updateCardController_notFound [⟨1, 7, "t", "c", "TO-DO", "d", "d"⟩] [] 2
    ⟨none, none, none, none⟩ "2026-01-01 00:00:00" (by decide)

/-- `C6` counterexample: with card `10` stored and a request body that
supplies `cardId = 3`, creation succeeds and responds `201` with a record
whose `cardId` is the client-supplied `3`, not the value `11` the
auto-increment column would generate — so the created key is not
auto-increment-generated. -/
theorem createCardController_counterexample :
    (createCardController [⟨10, 1, "t", "c", "TO-DO", "d", "d"⟩]
        ⟨some 3, 1, "t2", "c2", "DOING"⟩ "n").response
      = CreateResponse.created 201 ⟨3, 1, "t2", "c2", "DOING", "n", "n"⟩
    ∧ nextAutoId [⟨10, 1, "t", "c", "TO-DO", "d", "d"⟩] = 11
    ∧ (3 : Nat) ≠ 11 := by
  refine ⟨by decide, by decide, by decide⟩

/-- `C6` (amended): every successful creation responds `201`, stamps
`createdAt = updatedAt` to the formatted now, appends the record to the
store, and its `cardId` was not previously used; the key is the
auto-increment-generated `nextAutoId` — a fresh positive integer — exactly
when the request body supplies no `cardId`, and the client-supplied value
otherwise. -/
theorem createCardController_spec (cards : List Card) (body : CreateCardBody) (now : String)
    (s : Nat) (c : Card)
    (h : (createCardController cards body now).response = CreateResponse.created s c) :
    s = 201 ∧ c.createdAt = c.updatedAt ∧ c.createdAt = now
    ∧ (∀ x ∈ cards, x.cardId ≠ c.cardId)
    ∧ (body.cardId = none → (c.cardId = nextAutoId cards ∧ 0 < c.cardId))
    ∧ (∀ v, body.cardId = some v → c.cardId = v)
    ∧ (createCardController cards body now).db = cards ++ [c]
    ∧ (createCardController cards body now).committed = true := by
  simp only [createCardController] at h ⊢
  by_cases hdup :
      (cards.any (fun x => x.cardId == body.cardId.getD (nextAutoId cards))) = true
  · simp [hdup] at h
  · simp only [hdup, if_false, Bool.false_eq_true] at h ⊢
    injection h with hs hc
    subst hs
    subst hc
    refine ⟨rfl, rfl, rfl, ?_, ?_, ?_, rfl, by trivial⟩
    · intro x hx
      simp only [List.any_eq_true, not_exists, not_and] at hdup
      have := fun hmem => hdup x hmem
      simpa using this hx
    · intro hnone
      refine ⟨by simp [hnone], ?_⟩
      simp [hnone, nextAutoId]
    · intro v hv
      simp [hv]

/-- Witness for `createCardController_spec`: creating into an empty store
with no client `cardId` appends the record with the generated key `1`. -/
theorem createCardController_spec_witness :
    (createCardController [] ⟨none, 7, "t", "c", "TO-DO"⟩ "n").db
      = [] ++ [⟨1, 7, "t", "c", "TO-DO", "n", "n"⟩] :=
  (createCardController_spec [] ⟨none, 7, "t", "c", "TO-DO"⟩ "n" 201
    ⟨1, 7, "t", "c", "TO-DO", "n", "n"⟩ (by decide)).2.2.2.2.2.2.1

/-- `setIdx` never shrinks: the length after `arr[i] = v` is the larger of the
old length and `i + 1`. -/
theorem setIdx_length (arr : List Nat) (i v : Nat) :
    (setIdx arr i v).length = max arr.length (i + 1) := by
  unfold setIdx
  by_cases h : i < arr.length
  · simp [h]
    omega
  · simp [h]
    omega

/-- Writing within or just past the end, the written slot reads back. -/
theorem setIdx_getD_self (arr : List Nat) (i v : Nat) (h : i ≤ arr.length) :
    (setIdx arr i v).getD i 0 = v := by
  unfold setIdx
  by_cases h' : i < arr.length
  · rw [if_pos h', List.getD_eq_getElem?_getD, List.getElem?_set_self h']
    rfl
  · rw [if_neg h']
    have he : i = arr.length := le_antisymm h (not_lt.mp h')
    subst he
    simp only [Nat.sub_self, List.replicate_zero, List.append_nil]
    rw [List.getD_eq_getElem?_getD, List.getElem?_append_right (le_refl _)]
    simp

/-- Writing within or just past the end leaves every other slot unchanged. -/
theorem setIdx_getD_ne (arr : List Nat) (i v j : Nat) (hne : j ≠ i)
    (h : i ≤ arr.length) :
    (setIdx arr i v).getD j 0 = arr.getD j 0 := by
  unfold setIdx
  by_cases h' : i < arr.length
  · rw [if_pos h', List.getD_eq_getElem?_getD, List.getD_eq_getElem?_getD,
      List.getElem?_set_ne (Ne.symm hne)]
  · rw [if_neg h']
    have he : i = arr.length := le_antisymm h (not_lt.mp h')
    subst he
    simp only [Nat.sub_self, List.replicate_zero, List.append_nil]
    rw [List.getD_eq_getElem?_getD, List.getD_eq_getElem?_getD]
    by_cases hj : j < arr.length
    · rw [List.getElem?_append_left hj]
    · have h1 : arr[j]? = none := List.getElem?_eq_none_iff.mpr (not_lt.mp hj)
      have h2 : (arr ++ [v])[j]? = none := by
        apply List.getElem?_eq_none_iff.mpr
        simp only [List.length_append, List.length_singleton]
        omega
      rw [h1, h2]

/-- The loop's accumulator ends at the starting sum plus the sum of all
grouped counts. -/
theorem countLoop_sum (cs : List Nat) :
    ∀ (i sumCards : Nat) (arr : List Nat),
      (countLoop cs i sumCards arr).1 = sumCards + cs.sum := by
  induction cs with
  | nil =>
      intro i s arr
      simp [countLoop]
  | cons c cs ih =>
      intro i s arr
      simp only [countLoop]
      rw [ih]
      simp
      omega

/-- The loop's array ends at length `max arr.length (i + cs.length)`: four
slots unless the grouped counts overflow them. -/
theorem countLoop_length (cs : List Nat) :
    ∀ (i sumCards : Nat) (arr : List Nat), i ≤ arr.length →
      (countLoop cs i sumCards arr).2.length = max arr.length (i + cs.length) := by
  induction cs with
  | nil =>
      intro i s arr h
      simp [countLoop]
      omega
  | cons c cs ih =>
      intro i s arr h
      simp only [countLoop]
      rw [ih (i + 1) (s + c) (setIdx arr i c) (by rw [setIdx_length]; omega)]
      rw [setIdx_length]
      simp only [List.length_cons]
      omega

/-- Slots below the write window — and slots at or above its end — keep the
value they had before the loop ran. -/
theorem countLoop_getD_out (cs : List Nat) :
    ∀ (i sumCards : Nat) (arr : List Nat), i ≤ arr.length →
      ∀ j, (j < i ∨ i + cs.length ≤ j) →
        (countLoop cs i sumCards arr).2.getD j 0 = arr.getD j 0 := by
  induction cs with
  | nil =>
      intro i s arr h j hj
      simp [countLoop]
  | cons c cs ih =>
      intro i s arr h j hj
      simp only [List.length_cons] at hj
      simp only [countLoop]
      rw [ih (i + 1) (s + c) (setIdx arr i c) (by rw [setIdx_length]; omega) j (by omega)]
      exact setIdx_getD_ne arr i c j (by omega) h

/-- Slot `i + k` of the loop's array holds the `k`-th grouped count. -/
theorem countLoop_getD_in (cs : List Nat) :
    ∀ (i sumCards : Nat) (arr : List Nat), i ≤ arr.length →
      ∀ k, k < cs.length →
        (countLoop cs i sumCards arr).2.getD (i + k) 0 = cs.getD k 0 := by
  induction cs with
  | nil =>
      intro i s arr h k hk
      simp at hk
  | cons c cs ih =>
      intro i s arr h k hk
      simp only [countLoop]
      cases k with
      | zero =>
          rw [countLoop_getD_out cs (i + 1) (s + c) (setIdx arr i c)
            (by rw [setIdx_length]; omega) (i + 0) (by omega)]
          simpa using setIdx_getD_self arr i c h
      | succ k =>
          have harith : i + (k + 1) = (i + 1) + k := by omega
          rw [harith, ih (i + 1) (s + c) (setIdx arr i c) (by rw [setIdx_length]; omega) k
            (by simpa using hk)]
          simp [List.getD]

/-- The totals array always has at least the four documented slots, growing
with the grouped rows beyond that. -/
theorem countCardsTotals_length (counts : List Nat) :
    (countCardsTotals counts).length = max 4 counts.length := by
  unfold countCardsTotals
  rw [setIdx_length, countLoop_length counts 0 0 [0, 0, 0, 0] (by simp)]
  simp

/-- Slot 3 of the totals array is the grand total of the grouped counts. -/
theorem countCardsTotals_getD_sum (counts : List Nat) :
    (countCardsTotals counts).getD 3 0 = counts.sum := by
  unfold countCardsTotals
  rw [setIdx_getD_self _ 3 _
    (by rw [countLoop_length counts 0 0 [0, 0, 0, 0] (by simp)]; simp)]
  rw [countLoop_sum]
  simp

/-- Every slot other than 3 that the loop reaches holds the corresponding
grouped count. -/
theorem countCardsTotals_getD_in (counts : List Nat) (i : Nat) (hi : i < counts.length)
    (hne : i ≠ 3) :
    (countCardsTotals counts).getD i 0 = counts.getD i 0 := by
  unfold countCardsTotals
  rw [setIdx_getD_ne _ 3 _ i hne
    (by rw [countLoop_length counts 0 0 [0, 0, 0, 0] (by simp)]; simp)]
  simpa using countLoop_getD_in counts 0 0 [0, 0, 0, 0] (by simp) i hi

/-- The initial array reads `0` everywhere. -/
theorem initArray_getD (i : Nat) : ([0, 0, 0, 0] : List Nat).getD i 0 = 0 := by
  rcases i with _ | _ | _ | _ | i <;> simp [List.getD]

/-- A slot among the first three that the loop never reaches keeps its
initial `0`. -/
theorem countCardsTotals_getD_zero (counts : List Nat) (i : Nat)
    (hlo : counts.length ≤ i) (hi : i < 3) :
    (countCardsTotals counts).getD i 0 = 0 := by
  unfold countCardsTotals
  rw [setIdx_getD_ne _ 3 _ i (by omega)
    (by rw [countLoop_length counts 0 0 [0, 0, 0, 0] (by simp)]; simp)]
  rw [countLoop_getD_out counts 0 0 [0, 0, 0, 0] (by simp) i (Or.inr (by omega))]
  exact initArray_getD i

/-- A list of at most three numbers sums to its first three default-read
entries. -/
theorem sum_eq_getD_three (counts : List Nat) (h : counts.length ≤ 3) :
    counts.sum = counts.getD 0 0 + counts.getD 1 0 + counts.getD 2 0 := by
  rcases counts with _ | ⟨a, _ | ⟨b, _ | ⟨c, _ | ⟨d, t⟩⟩⟩⟩
  · simp
  · simp [List.getD]
  · simp [List.getD]
  · simp [List.getD]
    omega
  · simp only [List.length_cons] at h
    omega

/-- The boolean comparison agrees with `<` on `List Char`. -/
theorem charListLt_iff (as bs : List Char) : charListLt as bs = true ↔ as < bs := by
  induction as generalizing bs with
  | nil =>
      cases bs with
      | nil => simp [charListLt]
      | cons b bs =>
          simp only [charListLt, true_iff]
          exact List.Lex.nil
  | cons a as ih =>
      cases bs with
      | nil =>
          simp only [charListLt, Bool.false_eq_true, false_iff]
          intro h
          cases h
      | cons b bs =>
          simp only [charListLt]
          by_cases hab : a < b
          · simp only [hab, if_true, true_iff]
            exact List.Lex.rel hab
          · by_cases hba : b < a
            · simp only [hab, if_false, hba, if_true, Bool.false_eq_true, false_iff]
              intro h
              cases h with
              | cons h' => exact lt_irrefl a hba
              | rel h' => exact hab h'
            · have heq : a = b := le_antisymm (not_lt.mp hba) (not_lt.mp hab)
              subst heq
              simp only [hab, if_false, ih]
              constructor
              · intro h
                exact List.Lex.cons h
              · intro h
                cases h with
                | cons h' => exact h'
                | rel h' => exact absurd h' (lt_irrefl a)

/-- The boolean string comparison agrees with `<` on `String`. -/
theorem strLtb_iff (a b : String) : strLtb a b = true ↔ a < b := by
  rw [String.lt_iff_toList_lt]
  exact charListLt_iff a.data b.data

/-- Membership after a descending insertion. -/
theorem mem_insertDesc (s x : String) (l : List String) :
    x ∈ insertDesc s l ↔ x = s ∨ x ∈ l := by
  induction l with
  | nil => simp [insertDesc]
  | cons t ts ih =>
      unfold insertDesc
      by_cases h : strLtb s t = true
      · simp [h, ih]
        tauto
      · simp [h]

/-- Descending insertion preserves descending sortedness. -/
theorem insertDesc_sorted (s : String) (l : List String)
    (h : l.Sorted (fun a b => b ≤ a)) :
    (insertDesc s l).Sorted (fun a b => b ≤ a) := by
  induction l with
  | nil => simp [insertDesc]
  | cons t ts ih =>
      rw [List.sorted_cons] at h
      unfold insertDesc
      by_cases hst : strLtb s t = true
      · rw [if_pos hst, List.sorted_cons]
        refine ⟨?_, ih h.2⟩
        intro b hb
        rcases (mem_insertDesc s b ts).mp hb with hb | hb
        · rw [hb]
          exact le_of_lt ((strLtb_iff s t).mp hst)
        · exact h.1 b hb
      · rw [if_neg hst, List.sorted_cons]
        have hts : t ≤ s := by
          have hnlt : ¬ s < t := fun hlt => hst ((strLtb_iff s t).mpr hlt)
          exact not_lt.mp hnlt
        refine ⟨?_, List.sorted_cons.mpr h⟩
        intro b hb
        rcases List.mem_cons.mp hb with hb | hb
        · exact hb ▸ hts
        · exact le_trans (h.1 b hb) hts

/-- `sortDesc` yields a descending-sorted list. -/
theorem sortDesc_sorted (l : List String) : (sortDesc l).Sorted (fun a b => b ≤ a) := by
  unfold sortDesc
  induction l with
  | nil => simp
  | cons t ts ih => exact insertDesc_sorted t _ ih

/-- Projecting the first component of a pairing map recovers the original
list. -/
theorem map_fst_pairing {α β : Type} (l : List α) (g : α → β) :
    (l.map (fun s => (s, g s))).map (fun p => p.1) = l := by
  induction l with
  | nil => rfl
  | cons a t ih => simp [ih]

/-- `C1` counterexample: on a store with four distinct status strings (one
card each) the response array is `[1, 1, 1, 4]`, whose last slot `4` is not
the sum `3` of the first three slots — the claimed invariant fails on this
data state. -/
theorem countCards_invariant_counterexample :
    countCardsController dbFourStatuses none = [1, 1, 1, 4]
    ∧ ¬ ((countCardsController dbFourStatuses none).getD 3 0
          = (countCardsController dbFourStatuses none).getD 0 0
            + (countCardsController dbFourStatuses none).getD 1 0
            + (countCardsController dbFourStatuses none).getD 2 0) := by
  have h : countCardsController dbFourStatuses none = [1, 1, 1, 4] := by rfl
  refine ⟨h, ?_⟩
  rw [h]
  decide

/-- `C1` (amended): whenever at most three distinct status values occur among
the (optionally user-filtered) cards — in particular for every data state,
empty included, whose statuses stay within `TO-DO`/`DOING`/`DONE` — the
response array satisfies `cardsTotal[3] = cardsTotal[0] + cardsTotal[1] +
cardsTotal[2]`. -/
theorem countCards_invariant (db : List Card) (userId : Option String)
    (h : (countCardsByStatus db userId).length ≤ 3) :
    (countCardsController db userId).getD 3 0 =
      (countCardsController db userId).getD 0 0
        + (countCardsController db userId).getD 1 0
        + (countCardsController db userId).getD 2 0 := by
  have hlen : ((countCardsByStatus db userId).map (fun p => p.2)).length ≤ 3 := by
    simpa using h
  unfold countCardsController
  rw [countCardsTotals_getD_sum]
  have g : ∀ i, i < 3 →
      (countCardsTotals ((countCardsByStatus db userId).map (fun p => p.2))).getD i 0
        = ((countCardsByStatus db userId).map (fun p => p.2)).getD i 0 := by
    intro i hi
    by_cases hic : i < ((countCardsByStatus db userId).map (fun p => p.2)).length
    · exact countCardsTotals_getD_in _ i hic (by omega)
    · rw [countCardsTotals_getD_zero _ i (by omega) hi]
      symm
      simp [List.getD_eq_getElem?_getD, List.getElem?_eq_none_iff.mpr (not_lt.mp hic)]
  rw [g 0 (by omega), g 1 (by omega), g 2 (by omega)]
  exact sum_eq_getD_three _ hlen

/-- Witness for `countCards_invariant`: a store with one card of each
canonical status yields `[1, 1, 1, 3]`, where the invariant holds. -/
theorem countCards_invariant_witness :
    (countCardsController dbThreeStatuses none).getD 3 0 =
      (countCardsController dbThreeStatuses none).getD 0 0
        + (countCardsController dbThreeStatuses none).getD 1 0
        + (countCardsController dbThreeStatuses none).getD 2 0 :=
  countCards_invariant dbThreeStatuses none
    (by have hr : countCardsByStatus dbThreeStatuses none
          = [("TO-DO", 1), ("DONE", 1), ("DOING", 1)] := by rfl
        rw [hr]
        decide)

/-- `C10`: the loop of `CardController.countCards` writes into slot `i` the
count of the `i`-th grouped row — the grouped rows being sorted by status
string descending — not the count of a fixed status; every slot other than 3
still reads that row's count in the response; the response has length
`max 4 (number of grouped rows)`, so with more than four distinct statuses it
grows beyond 4; and when fewer than three rows exist the unreached slots
among 0..2 stay `0`. -/
theorem countCards_positional_spec (db : List Card) (userId : Option String) :
    (∀ i, i < (countCardsByStatus db userId).length →
        (countLoop ((countCardsByStatus db userId).map (fun p => p.2)) 0 0 [0, 0, 0, 0]).2.getD i 0
          = ((countCardsByStatus db userId).map (fun p => p.2)).getD i 0)
    ∧ (∀ i, i < (countCardsByStatus db userId).length → i ≠ 3 →
        (countCardsController db userId).getD i 0
          = ((countCardsByStatus db userId).map (fun p => p.2)).getD i 0)
    ∧ (countCardsController db userId).length = max 4 (countCardsByStatus db userId).length
    ∧ (∀ i, (countCardsByStatus db userId).length ≤ i → i < 3 →
        (countCardsController db userId).getD i 0 = 0)
    ∧ ((countCardsByStatus db userId).map (fun p => p.1)).Sorted (fun a b => b ≤ a) := by
  refine ⟨?_, ?_, ?_, ?_, ?_⟩
  · intro i hi
    have hi' : i < ((countCardsByStatus db userId).map (fun p => p.2)).length := by
      simpa using hi
    simpa using countLoop_getD_in _ 0 0 [0, 0, 0, 0] (by simp) i hi'
  · intro i hi hne
    unfold countCardsController
    exact countCardsTotals_getD_in _ i (by simpa using hi) hne
  · unfold countCardsController
    rw [countCardsTotals_length]
    simp
  · intro i hlo hi
    unfold countCardsController
    exact countCardsTotals_getD_zero _ i (by simpa using hlo) hi
  · unfold countCardsByStatus
    rw [map_fst_pairing]
    exact sortDesc_sorted _

/-- Witness for `countCards_positional_spec`: with five distinct statuses the
response grows to length 5 and slot 1 reads row 1's count; with a single
status slot 2 stays 0. -/
theorem countCards_positional_spec_witness :
    ((countCardsController dbFiveStatuses none).getD 1 0
        = ((countCardsByStatus dbFiveStatuses none).map (fun p => p.2)).getD 1 0)
    ∧ (countCardsController dbFiveStatuses none).length
        = max 4 (countCardsByStatus dbFiveStatuses none).length
    ∧ (countCardsController dbOneStatus none).getD 2 0 = 0 :=
  ⟨(countCards_positional_spec dbFiveStatuses none).2.1 1
      (by have hr : countCardsByStatus dbFiveStatuses none
            = [("E", 1), ("D", 1), ("C", 1), ("B", 1), ("A", 1)] := by rfl
          rw [hr]
          decide)
      (by decide),
   (countCards_positional_spec dbFiveStatuses none).2.2.1,
   (countCards_positional_spec dbOneStatus none).2.2.2.1 2
      (by have hr : countCardsByStatus dbOneStatus none = [("TO-DO", 1)] := by rfl
          rw [hr]
          decide)
      (by decide)⟩

/-- `C7`: on a one-card store whose owner is present in the user table,
`findCardByParameters` finds the card through the conjunctive filter but
returns it with `userCard` empty — the include object passed as `findOne`'s
discarded second argument never reaches the query — while `findCardById` on
the same store does hydrate the owner. -/
theorem findCardByParameters_dropsInclude :
    findCardByParameters [⟨1, 1, "t", "c", "TO-DO", "d", "d"⟩] [⟨1, "alice"⟩]
        [("cardId", "1")]
      = some { card := ⟨1, 1, "t", "c", "TO-DO", "d", "d"⟩, userCard := none }
    ∧ findCardById [⟨1, 1, "t", "c", "TO-DO", "d", "d"⟩] [⟨1, "alice"⟩] 1
      = some { card := ⟨1, 1, "t", "c", "TO-DO", "d", "d"⟩,
               userCard := some ⟨1, "alice"⟩ } := by
  constructor
  · rfl
  · rfl

/-- `C8`: exactly three routes carry no `verifyJWTToken` middleware — user
creation, login and password recovery — and every one of the thirteen
declared routes is either one of those three `POST /users` endpoints or is
authenticated. -/
theorem routes_auth_spec :
    routes.filter (fun r => !r.auth)
      = [ { method := "POST", path := "/users/", auth := false,
            handler := "UserController.createUser" },
          { method := "POST", path := "/users/login", auth := false,
            handler := "UserController.authenticateUser" },
          { method := "POST", path := "/users/recovery", auth := false,
            handler := "UserController.recoverUserPassword" } ]
    ∧ (routes.all (fun r =>
        r.auth || (r.method == "POST" &&
          (r.path == "/users/" || r.path == "/users/login"
            || r.path == "/users/recovery")))) = true
    ∧ routes.length = 13 := by
  refine ⟨by rfl, by rfl, by rfl⟩

/-- `C9` counterexample: an unmatched request does receive the structured
`404` fallback, but its message field is the Portuguese literal
`"Rota não encontrada"`, not the string `"Route not found"` the claim
states. -/
theorem routeNotFound_counterexample :
    dispatch "GET" "/nope" "2026-10-12 00:00:00"
      = RouterResult.fallback 404
          { code := 404, type := "error", message := "Rota não encontrada",
            date := "2026-10-12 00:00:00" }
    ∧ "Rota não encontrada" ≠ "Route not found" := by
  constructor
  · rfl
  · decide

/-- `C9` (amended): every request matching no declared route gets HTTP status
`404` with the structured payload `code = 404`, `type = "error"`, the
formatted date, and the (Portuguese) route-not-found message
`"Rota não encontrada"`. -/
theorem routeNotFound_fallback (method path date : String)
    (h : routes.find? (fun r => r.method == method && pathMatches r.path path) = none) :
    dispatch method path date
      = RouterResult.fallback 404
          { code := 404, type := "error", message := "Rota não encontrada",
            date := date } := by
  unfold dispatch
  rw [h]

/-- Witness for `routeNotFound_fallback`: a concrete unrouted request. -/
theorem routeNotFound_fallback_witness :
    dispatch "GET" "/cards/1/extra" "2026-10-12 00:00:00"
      = RouterResult.fallback 404
          { code := 404, type := "error", message := "Rota não encontrada",
            date := "2026-10-12 00:00:00" } :=
  routeNotFound_fallback "GET" "/cards/1/extra" "2026-10-12 00:00:00" (by rfl)

end Clickideia
